import Mathlib

/-!
Verification of the simplechat repository against its specification.

The repository has two Python source files:

  * `src/api/main.py` — the Inference Service: a FastAPI endpoint
    `POST /infer` (`run_inference`) that forwards a chat message plus
    conversation history to the Bedrock model backend and returns an
    `InferenceResponse`.
  * `src/lambda/index.py` — the Edge Relay: `lambda_handler` receives an
    API-Gateway event, POSTs `{message, conversationHistory}` to the
    Inference Service and maps its answer (or any failure) to an HTTP
    status and JSON body.

The embedding below follows the Python line by line.  External effects are
parameters: the Bedrock call of the Inference Service is an oracle
`invoke : JVal → BackendResult` applied to the `invoke_model` payload, the
Edge Relay's `json.loads` is an oracle `pj : String → Except String JVal`
and its `requests.post` is an oracle `post : String → JVal → PostResult`.  Python exceptions are an
explicit `Except PyErr` value; the `try/except` blocks of the source are
the top-level `match` of `run_inference` / `lambda_handler`.
-/

/-- JSON values, the data crossing every boundary of this system.  Python
objects produced by `json.loads` are modelled with `obj` as an association
list (objects coming out of `json.loads` have pairwise distinct keys, so
first-match lookup agrees with Python dict lookup). -/
inductive JVal where
  | null : JVal
  | bool : Bool → JVal
  | num : Int → JVal
  | str : String → JVal
  | arr : List JVal → JVal
  | obj : List (String × JVal) → JVal

/-- Python truthiness (`bool(v)`) of a JSON value: `None`, `False`, `0`,
`""`, `[]` and `{}` are falsy, everything else truthy. -/
def truthy : JVal → Bool
  | JVal.null => false
  | JVal.bool b => b
  | JVal.num n => n != 0
  | JVal.str s => s != ""
  | JVal.arr l => !l.isEmpty
  | JVal.obj l => !l.isEmpty

/-- Truthiness of a `dict.get` result: a missing key yields Python `None`,
which is falsy. -/
def truthyOpt : Option JVal → Bool
  | none => false
  | some v => truthy v

/-- The Python type name of a JSON value, used in error messages. -/
def typeName : JVal → String
  | JVal.null => "NoneType"
  | JVal.bool _ => "bool"
  | JVal.num _ => "int"
  | JVal.str _ => "str"
  | JVal.arr _ => "list"
  | JVal.obj _ => "dict"

/-- A raised Python exception, by the classes the sources catch
separately: `requestExn` is `requests.exceptions.RequestException`
(connection failures and `raise_for_status`), `attrErr` is
`AttributeError` (e.g. `.get` on a non-dict), `exn` is any other
`Exception` (KeyError, ValueError, TypeError, plain `Exception`, ...).
The string is Python's `str(error)` (quotation marks that CPython puts
around some messages are elided). -/
inductive PyErr where
  | requestExn : String → PyErr
  | attrErr : String → PyErr
  | exn : String → PyErr

/-- The message carried by an exception, i.e. `str(error)`. -/
def errStr : PyErr → String
  | PyErr.requestExn m => m
  | PyErr.attrErr m => m
  | PyErr.exn m => m

/-- The `AttributeError` message raised by `v.get(...)` when `v` is not a
dict. -/
def attrGetMsg (v : JVal) : String :=
  typeName v ++ " object has no attribute get"

/-- Python `v.get(k)`: `Option` distinguishes a missing key (`none`) from
a present `null` value; raises `AttributeError` when `v` is not a dict. -/
def pyGet (v : JVal) (k : String) : Except PyErr (Option JVal) :=
  match v with
  | JVal.obj fs => Except.ok (fs.lookup k)
  | w => Except.error (PyErr.attrErr (attrGetMsg w))

/-- Python `v.get(k, d)` with a default, used by the sources only at
places where `v` is already known to be a dict. -/
def pyGetD (v : JVal) (k : String) (d : JVal) : JVal :=
  match v with
  | JVal.obj fs => (fs.lookup k).getD d
  | _ => d

/-- Python `v[k]` for a string key: `KeyError` on a dict without the key,
`TypeError` on any non-dict. -/
def pyIndex (v : JVal) (k : String) : Except PyErr JVal :=
  match v with
  | JVal.obj fs =>
      match fs.lookup k with
      | some w => Except.ok w
      | none => Except.error (PyErr.exn ("KeyError: " ++ k))
  | JVal.arr _ =>
      Except.error (PyErr.exn "list indices must be integers or slices, not str")
  | JVal.str _ =>
      Except.error (PyErr.exn "string indices must be integers")
  | w =>
      Except.error (PyErr.exn (typeName w ++ " object is not subscriptable"))

/-- Whether `needle` occurs as a contiguous run inside the character
list. -/
def charsInfix (needle : List Char) : List Char → Bool
  | [] => needle.isEmpty
  | c :: rest => needle.isPrefixOf (c :: rest) || charsInfix needle rest

/-- Python `k in v` for a string `k`: key membership on dicts, value
membership on lists, substring test on strings, `TypeError` otherwise. -/
def pyIn (k : String) (v : JVal) : Except PyErr Bool :=
  match v with
  | JVal.obj fs => Except.ok (fs.lookup k).isSome
  | JVal.arr items =>
      Except.ok (items.any fun w =>
        match w with
        | JVal.str s => s == k
        | _ => false)
  | JVal.str s => Except.ok (charsInfix k.toList s.toList)
  | w => Except.error (PyErr.exn ("argument of type " ++ typeName w ++ " is not iterable"))

/-- Python `str(v)` for a JSON value (container rendering abridged: the
sources only ever stringify scalar error fields). -/
def pyStr : JVal → String
  | JVal.str s => s
  | JVal.num n => toString n
  | JVal.bool true => "True"
  | JVal.bool false => "False"
  | JVal.null => "None"
  | JVal.arr _ => "<list>"
  | JVal.obj _ => "<dict>"

/- ------------------------------------------------------------------
Inference Service (`src/api/main.py`).
------------------------------------------------------------------ -/

/-- `ChatMessage` of `src/api/main.py`: `{role: str, content: str}`. -/
structure ChatMessage where
  role : String
  content : String
deriving DecidableEq, Repr

/-- Outcome of one `bedrock_client.invoke_model` call followed by the
parse `json.loads(response["body"].read())`:
`clientError` is a raised `botocore` `ClientError`, `exn` any other
exception raised while calling or reading/parsing the response, `ok` the
parsed response body. -/
inductive BackendResult where
  | clientError : String → BackendResult
  | exn : String → BackendResult
  | ok : JVal → BackendResult

/-- One translated Bedrock message (main.py lines 96-106): a role tag and
a one-element content list holding a single text block. -/
def toBedrockMessage (role content : String) : JVal :=
  JVal.obj [("role", JVal.str role),
            ("content", JVal.arr [JVal.obj [("text", JVal.str content)]])]

/-- The translation loop of main.py lines 95-106: `user` and `assistant`
messages are converted, any other role falls through both branches and is
dropped. -/
def toBedrockMessages (msgs : List ChatMessage) : List JVal :=
  msgs.filterMap fun m =>
    if m.role = "user" then some (toBedrockMessage "user" m.content)
    else if m.role = "assistant" then some (toBedrockMessage "assistant" m.content)
    else none

/-- The `invoke_model` request payload (main.py lines 109-117): the
translated messages plus the fixed generation configuration.  The two
floating-point constants are carried as their decimal literals. -/
def mkPayload (msgs : List JVal) : JVal :=
  JVal.obj [("messages", JVal.arr msgs),
            ("inferenceConfig",
              JVal.obj [("maxTokens", JVal.num 512),
                        ("stopSequences", JVal.arr []),
                        ("temperature", JVal.str "0.7"),
                        ("topP", JVal.str "0.9")])]

/-- The message of the exception raised by the structural validation
(main.py line 140). -/
def noValidMsg : String := "No valid response content from the model"

/-- The structural validation and extraction of main.py lines 134-144:
the `or`-chain short-circuits left to right, raising the generic
exception as soon as a step fails; `content[0].get("text")` itself raises
`AttributeError` when the first content element is not a dict, and
`response_body.get("output")` raises when the body is not a dict.  On
success the result is `response_body["output"]["message"]["content"][0]["text"]`. -/
def validateExtract (body : JVal) : Except PyErr JVal := do
  let outputO ← pyGet body "output"
  match outputO with
  | some (JVal.obj ofs) =>
      if ofs.isEmpty then Except.error (PyErr.exn noValidMsg)
      else
        match ofs.lookup "message" with
        | some (JVal.obj mfs) =>
            if mfs.isEmpty then Except.error (PyErr.exn noValidMsg)
            else
              match mfs.lookup "content" with
              | some (JVal.arr items) =>
                  match items with
                  | [] => Except.error (PyErr.exn noValidMsg)
                  | c0 :: _ => do
                      let textO ← pyGet c0 "text"
                      if truthyOpt textO then Except.ok (textO.getD JVal.null)
                      else Except.error (PyErr.exn noValidMsg)
              | _ => Except.error (PyErr.exn noValidMsg)
        | _ => Except.error (PyErr.exn noValidMsg)
  | _ => Except.error (PyErr.exn noValidMsg)

/-- The message of the pydantic `ValidationError` raised when a value
cannot be coerced into the `str` fields `ChatMessage.content` /
`InferenceResponse.response` (abridged to its first line). -/
def valErrMsg : String := "1 validation error for ChatMessage"

/-- Pydantic v1 coercion of the extracted text into a `str` field:
strings pass through, ints and bools are stringified, containers raise a
`ValidationError` (`null` cannot reach this point, the validation already
rejected falsy text). -/
def coerceStr : JVal → Except PyErr String
  | JVal.str s => Except.ok s
  | JVal.num n => Except.ok (toString n)
  | JVal.bool true => Except.ok "True"
  | JVal.bool false => Except.ok "False"
  | _ => Except.error (PyErr.exn valErrMsg)

/-- `InferenceResponse` of `src/api/main.py`. -/
structure InferenceResponse where
  success : Bool
  response : Option String
  conversationHistory : Option (List ChatMessage)
  error : Option String
deriving DecidableEq, Repr

/-- What `run_inference` does with the outcome of the Bedrock call
(main.py lines 129-163): validate, extract, append the assistant turn;
the two `except` clauses map a `ClientError` to the prefixed message and
any other exception to its own message. -/
def inferBackendResult (messages : List ChatMessage) (res : BackendResult) :
    InferenceResponse :=
  match res with
  | BackendResult.clientError m =>
      { success := false, response := none, conversationHistory := none,
        error := some ("Bedrock API error: " ++ m) }
  | BackendResult.exn m =>
      { success := false, response := none, conversationHistory := none,
        error := some m }
  | BackendResult.ok body =>
      match validateExtract body with
      | Except.error e =>
          { success := false, response := none, conversationHistory := none,
            error := some (errStr e) }
      | Except.ok tv =>
          match coerceStr tv with
          | Except.error e =>
              { success := false, response := none, conversationHistory := none,
                error := some (errStr e) }
          | Except.ok t =>
              { success := true, response := some t,
                conversationHistory :=
                  some (messages ++ [ChatMessage.mk "assistant" t]),
                error := none }

/-- `run_inference` of `src/api/main.py` (lines 65-163).  `avail` is
whether the module-level `bedrock_client` initialization succeeded
(`bedrock_client is not None`); `invoke` is the backend oracle, applied to
the `invoke_model` payload.  When `avail` is false the backend is never
consulted (main.py lines 76-83 return before the `try` block). -/
def run_inference (avail : Bool) (invoke : JVal → BackendResult)
    (message : String) (history : List ChatMessage) : InferenceResponse :=
  if avail = false then
    { success := false, response := none, conversationHistory := none,
      error := some "Bedrock client not available." }
  else
    let messages := history ++ [ChatMessage.mk "user" message]
    inferBackendResult messages (invoke (mkPayload (toBedrockMessages messages)))

/-- A backend response body of the expected deep shape,
`{"output": {"message": {"content": [{"text": t}]}}}`, with an arbitrary
value in the text slot. -/
def shapedBody (t : JVal) : JVal :=
  JVal.obj [("output", JVal.obj [("message", JVal.obj
    [("content", JVal.arr [JVal.obj [("text", t)]])])])]

/-- A well-formed backend stub body whose generated text is `t`. -/
def stubBody (t : String) : JVal := shapedBody (JVal.str t)

/-- A backend stub used to instantiate universally quantified theorems. -/
def stubInvoke (t : String) : JVal → BackendResult :=
  fun _ => BackendResult.ok (stubBody t)

example :
    run_inference true (stubInvoke "Hello!") "Hi" [] =
    { success := true, response := some "Hello!",
      conversationHistory := some [ChatMessage.mk "user" "Hi", ChatMessage.mk "assistant" "Hello!"],
      error := none } := by
  decide

/- ------------------------------------------------------------------
Edge Relay (`src/lambda/index.py`).
------------------------------------------------------------------ -/

/-- Outcome of `requests.post(...)` followed by `raise_for_status()` and
`response.json()`: `reqExn` is a raised
`requests.exceptions.RequestException` (connection failure or non-2xx
status), `ok` the parsed JSON of a 2xx response. -/
inductive PostResult where
  | reqExn : String → PostResult
  | ok : JVal → PostResult

/-- The value `lambda_handler` returns to API Gateway.  The `body` is
kept structured rather than as the `json.dumps` string. -/
structure LambdaResponse where
  statusCode : Nat
  headers : List (String × String)
  body : JVal

/-- The header map attached to every return of `lambda_handler`
(index.py lines 74-79, 91-96, 107-112 are identical). -/
def corsHeaders : List (String × String) :=
  [("Content-Type", "application/json"),
   ("Access-Control-Allow-Origin", "*"),
   ("Access-Control-Allow-Headers", "Content-Type,X-Amz-Date,Authorization,X-Api-Key,X-Amz-Security-Token"),
   ("Access-Control-Allow-Methods", "OPTIONS,POST")]

/-- A response of `lambda_handler` with the fixed CORS headers. -/
def resp (code : Nat) (body : JVal) : LambdaResponse :=
  { statusCode := code, headers := corsHeaders, body := body }

/-- The error body `{"success": false, "error": msg}`. -/
def errBody (msg : String) : JVal :=
  JVal.obj [("success", JVal.bool false), ("error", JVal.str msg)]

/-- Message of the `ValueError` raised when `INFERENCE_API_ENDPOINT` is
unset (index.py line 29). -/
def cfgMsg : String := "INFERENCE_API_ENDPOINT environment variable is not set."

/-- The optional identity-claims extraction (index.py lines 32-35): if
the event has a `requestContext` containing an `authorizer`, read
`...["authorizer"]["claims"]` (KeyError when `claims` is missing) and
call `.get` on it twice for the log line (AttributeError unless it is a
dict).  The extracted value is only logged, so the result type is
`Unit`. -/
def claimsStep (event : List (String × JVal)) : Except PyErr Unit :=
  match event.lookup "requestContext" with
  | none => Except.ok ()
  | some rc =>
      match pyIn "authorizer" rc with
      | Except.error e => Except.error e
      | Except.ok false => Except.ok ()
      | Except.ok true =>
          match pyIndex rc "authorizer" with
          | Except.error e => Except.error e
          | Except.ok az =>
              match pyIndex az "claims" with
              | Except.error e => Except.error e
              | Except.ok claims =>
                  match claims with
                  | JVal.obj _ => Except.ok ()
                  | w => Except.error (PyErr.attrErr (attrGetMsg w))

/-- Whether an `api_response.get(...)` result is Python `None`: the key
is absent or its value is JSON `null`. -/
def noneLike : Option JVal → Bool
  | none => true
  | some JVal.null => true
  | some _ => false

/-- Index.py lines 57-69: what the handler does with the parsed JSON of a
2xx Inference Service response — raise the propagated error when
`success` is falsy, raise on a missing `response`/`conversationHistory`,
otherwise yield the pair for the 200 body. -/
def afterPost (api : JVal) : Except PyErr (JVal × JVal) := do
  let successV ← pyGet api "success"
  if truthyOpt successV = false then
    Except.error (PyErr.exn (pyStr (pyGetD api "error" (JVal.str "Inference API returned an error."))))
  else do
    let aR ← pyGet api "response"
    let uH ← pyGet api "conversationHistory"
    if noneLike aR || noneLike uH then
      Except.error (PyErr.exn "Invalid response structure from Inference API.")
    else
      Except.ok (aR.getD JVal.null, uH.getD JVal.null)

/-- The body of the `try` block of `lambda_handler` (index.py lines
25-85): each raised exception becomes an `Except.error`.  `ep` is the
module-level `INFERENCE_API_ENDPOINT` (`none` when the environment
variable is unset; the empty string is falsy too), `event` the gateway
event (always a JSON object), `pj` the `json.loads` oracle and `post`
the `requests.post` oracle. -/
def lambdaBody (ep : Option String) (event : List (String × JVal))
    (pj : String → Except String JVal) (post : String → JVal → PostResult) :
    Except PyErr (JVal × JVal) := do
  let epS ← match ep with
    | none => Except.error (PyErr.exn cfgMsg)
    | some s => if s == "" then Except.error (PyErr.exn cfgMsg) else Except.ok s
  claimsStep event
  let bodyV ← match event.lookup "body" with
    | some v => Except.ok v
    | none => Except.error (PyErr.exn "KeyError: body")
  let bodyS ← match bodyV with
    | JVal.str s => Except.ok s
    | _ => Except.error (PyErr.exn "the JSON object must be str, bytes or bytearray")
  let body ← match pj bodyS with
    | Except.ok v => Except.ok v
    | Except.error e => Except.error (PyErr.exn e)
  let messageV ← pyIndex body "message"
  let historyV := pyGetD body "conversationHistory" (JVal.arr [])
  let payload := JVal.obj [("message", messageV), ("conversationHistory", historyV)]
  match post epS payload with
  | PostResult.reqExn s => Except.error (PyErr.requestExn s)
  | PostResult.ok api => afterPost api

/-- `lambda_handler` of `src/lambda/index.py` (lines 14-117): run the
`try` block; a `RequestException` is caught first and mapped to 502 with
the connectivity prefix (lines 87-101), any other exception to 500 with
its own message (lines 103-117), success to 200 (lines 72-85). -/
def lambda_handler (ep : Option String) (event : List (String × JVal))
    (pj : String → Except String JVal) (post : String → JVal → PostResult) :
    LambdaResponse :=
  match lambdaBody ep event pj post with
  | Except.ok (a, h) =>
      resp 200 (JVal.obj [("success", JVal.bool true), ("response", a),
                          ("conversationHistory", h)])
  | Except.error (PyErr.requestExn m) =>
      resp 502 (errBody ("Failed to connect to inference service: " ++ m))
  | Except.error (PyErr.attrErr m) => resp 500 (errBody m)
  | Except.error (PyErr.exn m) => resp 500 (errBody m)

/- ------------------------------------------------------------------
Supporting lemmas.
------------------------------------------------------------------ -/

theorem str_append_ne_right (s t : String) (ht : t ≠ "") : s ++ t ≠ "" := by
  intro h
  apply ht
  have hd := congrArg String.data h
  rw [String.data_append] at hd
  have h2 : t.data = [] := (List.append_eq_nil.mp hd).2
  cases t with
  | mk td => simp_all

theorem str_append_ne_left (s t : String) (hs : s ≠ "") : s ++ t ≠ "" := by
  intro h
  apply hs
  have hd := congrArg String.data h
  rw [String.data_append] at hd
  have h2 : s.data = [] := (List.append_eq_nil.mp hd).1
  cases s with
  | mk sd => simp_all

theorem attrGetMsg_ne_empty (v : JVal) : attrGetMsg v ≠ "" :=
  str_append_ne_right _ _ (by decide)

/-- Every failure of the structural validation is either the generic
exception of line 140 or an `AttributeError` from a `.get` on a
non-dict. -/
theorem validateExtract_error_shape (body : JVal) (e : PyErr)
    (h : validateExtract body = Except.error e) :
    e = PyErr.exn noValidMsg ∨ ∃ v, e = PyErr.attrErr (attrGetMsg v) := by
  cases body <;>
    simp only [validateExtract, pyGet, bind, Except.bind, Except.error.injEq] at h
  case null => exact Or.inr ⟨JVal.null, h.symm⟩
  case bool b => exact Or.inr ⟨JVal.bool b, h.symm⟩
  case num n => exact Or.inr ⟨JVal.num n, h.symm⟩
  case str s => exact Or.inr ⟨JVal.str s, h.symm⟩
  case arr l => exact Or.inr ⟨JVal.arr l, h.symm⟩
  case obj fs =>
    split at h
    next ofs heq =>
      split at h
      next => exact Or.inl (Except.error.inj h).symm
      next =>
        split at h
        next mfs heq2 =>
          split at h
          next => exact Or.inl (Except.error.inj h).symm
          next =>
            split at h
            next items heq3 =>
              match items, h with
              | [], h => exact Or.inl (Except.error.inj h).symm
              | c0 :: rest, h =>
                cases c0 <;>
                  simp only [pyGet, bind, Except.bind, Except.error.injEq] at h
                case obj cfs =>
                  split at h
                  · exact absurd h (by simp)
                  · exact Or.inl (Except.error.inj h).symm
                all_goals first
                  | exact Or.inr ⟨JVal.null, h.symm⟩
                  | exact Or.inr ⟨JVal.bool _, h.symm⟩
                  | exact Or.inr ⟨JVal.num _, h.symm⟩
                  | exact Or.inr ⟨JVal.str _, h.symm⟩
                  | exact Or.inr ⟨JVal.arr _, h.symm⟩
            next => exact Or.inl (Except.error.inj h).symm
        next => exact Or.inl (Except.error.inj h).symm
    next => exact Or.inl (Except.error.inj h).symm

theorem coerceStr_error_shape (tv : JVal) (e : PyErr)
    (h : coerceStr tv = Except.error e) : e = PyErr.exn valErrMsg := by
  cases tv <;> simp only [coerceStr, Except.error.injEq] at h <;>
    first
      | exact h.symm
      | exact Except.noConfusion h
      | (rename_i b; cases b <;> simp only [Except.error.injEq] at h <;>
          exact Except.noConfusion h)

/-- Case analysis of `run_inference`: either the success shape (the
user and assistant turns appended to the history, the assistant text
echoed as `response`), or the failure shape (all optional fields empty
except `error`), where the error message is non-empty unless it is the
verbatim message of an exception raised by the backend call itself. -/
theorem run_inference_shape (avail : Bool) (invoke : JVal → BackendResult)
    (m : String) (hist : List ChatMessage) :
    (∃ t, run_inference avail invoke m hist =
        { success := true, response := some t,
          conversationHistory :=
            some (hist ++ [ChatMessage.mk "user" m, ChatMessage.mk "assistant" t]),
          error := none }) ∨
    (∃ e, run_inference avail invoke m hist =
        { success := false, response := none, conversationHistory := none,
          error := some e } ∧
      (e ≠ "" ∨
        invoke (mkPayload (toBedrockMessages (hist ++ [ChatMessage.mk "user" m]))) =
          BackendResult.exn e)) := by
  unfold run_inference
  cases avail with
  | false => exact Or.inr ⟨_, rfl, Or.inl (by decide)⟩
  | true =>
    simp only [Bool.true_eq_false, if_false]
    cases hres : invoke (mkPayload (toBedrockMessages (hist ++ [ChatMessage.mk "user" m]))) with
    | clientError s =>
      exact Or.inr ⟨"Bedrock API error: " ++ s, by simp [inferBackendResult],
        Or.inl (str_append_ne_left _ _ (by decide))⟩
    | exn s =>
      exact Or.inr ⟨s, by simp [inferBackendResult], Or.inr rfl⟩
    | ok body =>
      cases hv : validateExtract body with
      | error e =>
        refine Or.inr ⟨errStr e, by simp [inferBackendResult, hv], Or.inl ?_⟩
        rcases validateExtract_error_shape body e hv with h1 | ⟨v, h2⟩
        · subst h1; decide
        · subst h2; exact attrGetMsg_ne_empty v
      | ok tv =>
        cases hc : coerceStr tv with
        | error e =>
          refine Or.inr ⟨errStr e, by simp [inferBackendResult, hv, hc], Or.inl ?_⟩
          rw [coerceStr_error_shape tv e hc]
          decide
        | ok t =>
          exact Or.inl ⟨t, by simp [inferBackendResult, hv, hc]⟩

/- ------------------------------------------------------------------
Claims about the Inference Service.
------------------------------------------------------------------ -/

/-- C1: whenever `infer` returns `success = true`, the returned
conversation history is the input history with exactly the user turn and
the assistant turn appended, in that order; the assistant turn's content
equals the `response` field; the input history is an unchanged prefix
and the length grows by exactly two. -/
theorem infer_success_roundtrip (avail : Bool) (invoke : JVal → BackendResult)
    (m : String) (hist : List ChatMessage)
    (hs : (run_inference avail invoke m hist).success = true) :
    ∃ t, (run_inference avail invoke m hist).response = some t ∧
      (run_inference avail invoke m hist).conversationHistory =
        some (hist ++ [ChatMessage.mk "user" m, ChatMessage.mk "assistant" t]) ∧
      ∃ h2, (run_inference avail invoke m hist).conversationHistory = some h2 ∧
        hist.IsPrefix h2 ∧ h2.length = hist.length + 2 := by
  rcases run_inference_shape avail invoke m hist with ⟨t, heq⟩ | ⟨e, heq, _⟩
  · refine ⟨t, by simp [heq], by simp [heq],
      hist ++ [ChatMessage.mk "user" m, ChatMessage.mk "assistant" t],
      by simp [heq],
      ⟨[ChatMessage.mk "user" m, ChatMessage.mk "assistant" t], rfl⟩,
      by simp⟩
  · rw [heq] at hs
    simp at hs

theorem infer_success_roundtrip_witness :
    (run_inference true (stubInvoke "Hello!") "Hi" []).success = true ∧
    ∃ t, (run_inference true (stubInvoke "Hello!") "Hi" []).response = some t ∧
      (run_inference true (stubInvoke "Hello!") "Hi" []).conversationHistory =
        some ([] ++ [ChatMessage.mk "user" "Hi", ChatMessage.mk "assistant" t]) ∧
      ∃ h2, (run_inference true (stubInvoke "Hello!") "Hi" []).conversationHistory = some h2 ∧
        List.IsPrefix ([] : List ChatMessage) h2 ∧
        h2.length = ([] : List ChatMessage).length + 2 :=
  ⟨by decide, infer_success_roundtrip true (stubInvoke "Hello!") "Hi" [] (by decide)⟩

/-- C2: `infer` always yields a well-formed `InferenceResponse` (the
embedding is a total function, so no exception reaches the caller), and
exactly one of the two field groups is populated, consistent with
`success`: on success, `response` and `conversationHistory` are present
and `error` absent; on failure, `error` is present and non-empty and the
other two are absent.  The hypothesis states that the backend oracle
only raises exceptions whose `str` is non-empty, which holds of every
exception the real call stack produces. -/
theorem infer_wellformed (avail : Bool) (invoke : JVal → BackendResult)
    (m : String) (hist : List ChatMessage)
    (hmsg : ∀ p s, invoke p = BackendResult.exn s → s ≠ "") :
    ((run_inference avail invoke m hist).success = true →
      (run_inference avail invoke m hist).response.isSome ∧
      (run_inference avail invoke m hist).conversationHistory.isSome ∧
      (run_inference avail invoke m hist).error = none) ∧
    ((run_inference avail invoke m hist).success = false →
      (∃ e, (run_inference avail invoke m hist).error = some e ∧ e ≠ "") ∧
      (run_inference avail invoke m hist).response = none ∧
      (run_inference avail invoke m hist).conversationHistory = none) := by
  rcases run_inference_shape avail invoke m hist with ⟨t, heq⟩ | ⟨e, heq, hne⟩
  · constructor
    · intro _
      simp [heq]
    · intro hf
      rw [heq] at hf
      simp at hf
  · constructor
    · intro hs
      rw [heq] at hs
      simp at hs
    · intro _
      refine ⟨⟨e, by simp [heq], ?_⟩, by simp [heq], by simp [heq]⟩
      rcases hne with h | h
      · exact h
      · exact hmsg _ _ h

theorem infer_wellformed_witness :
    ((run_inference false (stubInvoke "ok") "hi" []).success = true →
      (run_inference false (stubInvoke "ok") "hi" []).response.isSome ∧
      (run_inference false (stubInvoke "ok") "hi" []).conversationHistory.isSome ∧
      (run_inference false (stubInvoke "ok") "hi" []).error = none) ∧
    ((run_inference false (stubInvoke "ok") "hi" []).success = false →
      (∃ e, (run_inference false (stubInvoke "ok") "hi" []).error = some e ∧ e ≠ "") ∧
      (run_inference false (stubInvoke "ok") "hi" []).response = none ∧
      (run_inference false (stubInvoke "ok") "hi" []).conversationHistory = none) :=
  infer_wellformed false (stubInvoke "ok") "hi" []
    (fun _ _ h => BackendResult.noConfusion h)

/-- C3: a history message whose role is neither `user` nor `assistant`
contributes nothing to the translated Bedrock message list — the payload
sent to the backend is the same as if the message were deleted from the
history — while on success the returned history still contains it at its
original position. -/
theorem infer_unknown_role_dropped (avail : Bool) (invoke : JVal → BackendResult)
    (m : String) (xs ys : List ChatMessage) (msg : ChatMessage)
    (h1 : msg.role ≠ "user") (h2 : msg.role ≠ "assistant") :
    mkPayload (toBedrockMessages ((xs ++ msg :: ys) ++ [ChatMessage.mk "user" m])) =
      mkPayload (toBedrockMessages ((xs ++ ys) ++ [ChatMessage.mk "user" m])) ∧
    ((run_inference avail invoke m (xs ++ msg :: ys)).success = true →
      ∃ h2l, (run_inference avail invoke m (xs ++ msg :: ys)).conversationHistory =
          some h2l ∧ h2l[xs.length]? = some msg) := by
  constructor
  · simp [toBedrockMessages, List.filterMap_append, List.filterMap_cons, h1, h2]
  · intro hs
    rcases run_inference_shape avail invoke m (xs ++ msg :: ys) with ⟨t, heq⟩ | ⟨e, heq, _⟩
    · refine ⟨(xs ++ msg :: ys) ++
        [ChatMessage.mk "user" m, ChatMessage.mk "assistant" t], by simp [heq], ?_⟩
      rw [List.append_assoc, List.cons_append,
        List.getElem?_append_right (Nat.le_refl xs.length)]
      simp
    · rw [heq] at hs
      simp at hs

theorem infer_unknown_role_dropped_witness :
    (mkPayload (toBedrockMessages (([] ++ ChatMessage.mk "system" "s" :: []) ++
        [ChatMessage.mk "user" "hi"])) =
      mkPayload (toBedrockMessages (([] ++ []) ++ [ChatMessage.mk "user" "hi"]))) ∧
    ((run_inference true (stubInvoke "ok") "hi"
        ([] ++ ChatMessage.mk "system" "s" :: [])).success = true →
      ∃ h2l, (run_inference true (stubInvoke "ok") "hi"
          ([] ++ ChatMessage.mk "system" "s" :: [])).conversationHistory = some h2l ∧
        h2l[List.length ([] : List ChatMessage)]? = some (ChatMessage.mk "system" "s")) :=
  infer_unknown_role_dropped true (stubInvoke "ok") "hi" [] []
    (ChatMessage.mk "system" "s") (by decide) (by decide)

/-- C4: when the one-time Bedrock client initialization failed
(`bedrock_client is None`), every call returns the fixed
backend-unavailable error response without consulting the backend: the
result is the same for any two backend oracles, and no exception reaches
the caller (the embedding is total). -/
theorem infer_client_unavailable (invoke1 invoke2 : JVal → BackendResult)
    (m : String) (hist : List ChatMessage) :
    run_inference false invoke1 m hist =
      { success := false, response := none, conversationHistory := none,
        error := some "Bedrock client not available." } ∧
    run_inference false invoke1 m hist = run_inference false invoke2 m hist := by
  exact ⟨rfl, rfl⟩

/-- A backend body whose deep shape is complete down to the content list,
but whose first content element is a bare string instead of an object,
so `content[0].get("text")` raises `AttributeError`. -/
def badFirstContentBody : JVal :=
  JVal.obj [("output", JVal.obj [("message", JVal.obj
    [("content", JVal.arr [JVal.str "hello"])])])]

/-- C5 counterexample: a backend body that fails the deep structural
validation ("first content element lacking a text field": the first
element is the bare string "hello") for which `infer` does return
`success = false`, but with the `AttributeError` message of
`content[0].get("text")`, not the generic "No valid response content"
failure the claim requires. -/
theorem infer_malformed_counterexample :
    (run_inference true (fun _ => BackendResult.ok badFirstContentBody)
        "hi" []).success = false ∧
    (run_inference true (fun _ => BackendResult.ok badFirstContentBody)
        "hi" []).error = some "str object has no attribute get" ∧
    (run_inference true (fun _ => BackendResult.ok badFirstContentBody)
        "hi" []).error ≠ some noValidMsg := by
  exact ⟨by decide, by decide, by decide⟩

/-- C5 (amended): for every backend response body that fails the deep
structural validation, `infer` returns `success = false` with the
non-empty message of the raised exception and raises nothing itself;
that message is the generic "No valid response content from the model"
in every case except when the attribute access itself raises (the body,
or the first content element, is not an object), where it is the
`AttributeError` message instead. -/
theorem infer_malformed_body (m : String) (hist : List ChatMessage)
    (body : JVal) (e : PyErr)
    (hval : validateExtract body = Except.error e) :
    run_inference true (fun _ => BackendResult.ok body) m hist =
      { success := false, response := none, conversationHistory := none,
        error := some (errStr e) } ∧
    errStr e ≠ "" ∧
    ((∀ s, e ≠ PyErr.attrErr s) → errStr e = noValidMsg) := by
  refine ⟨by simp [run_inference, inferBackendResult, hval], ?_, ?_⟩
  · rcases validateExtract_error_shape body e hval with h | ⟨v, h⟩
    · subst h
      decide
    · subst h
      exact attrGetMsg_ne_empty v
  · intro hna
    rcases validateExtract_error_shape body e hval with h | ⟨v, h⟩
    · subst h
      rfl
    · exact absurd h (hna (attrGetMsg v))

theorem infer_malformed_body_witness :
    run_inference true (fun _ => BackendResult.ok (JVal.obj [])) "hi" [] =
      { success := false, response := none, conversationHistory := none,
        error := some (errStr (PyErr.exn noValidMsg)) } ∧
    errStr (PyErr.exn noValidMsg) ≠ "" ∧
    ((∀ s, PyErr.exn noValidMsg ≠ PyErr.attrErr s) →
      errStr (PyErr.exn noValidMsg) = noValidMsg) :=
  infer_malformed_body "hi" [] (JVal.obj []) (PyErr.exn noValidMsg) rfl

/-- C9: a backend body with the full structural shape whose
`output.message.content[0].text` is falsy (the empty string, `0`,
`false`, `null`, an empty list or object) is classified as malformed:
`infer` returns `success = false` with the generic message, never
`success = true` with an empty response, because the validation tests
the truthiness of the text field rather than its presence. -/
theorem infer_falsy_text_rejected (m : String) (hist : List ChatMessage)
    (t : JVal) (hfalsy : truthy t = false) :
    run_inference true (fun _ => BackendResult.ok (shapedBody t)) m hist =
      { success := false, response := none, conversationHistory := none,
        error := some noValidMsg } := by
  have hv : validateExtract (shapedBody t) = Except.error (PyErr.exn noValidMsg) := by
    simp [validateExtract, shapedBody, pyGet, truthyOpt, hfalsy, List.lookup,
      bind, Except.bind]
  simp [run_inference, inferBackendResult, hv, errStr]

theorem infer_falsy_text_rejected_witness :
    run_inference true (fun _ => BackendResult.ok (shapedBody (JVal.str ""))) "hi" [] =
      { success := false, response := none, conversationHistory := none,
        error := some noValidMsg } :=
  infer_falsy_text_rejected "hi" [] (JVal.str "") (by decide)

/- ------------------------------------------------------------------
Supporting lemmas for the Edge Relay.
------------------------------------------------------------------ -/

/-- Whether `INFERENCE_API_ENDPOINT` is set to a truthy value (a
non-empty string). -/
def endpointSet : Option String → Bool
  | none => false
  | some s => !(s == "")

/-- A constant `json.loads` oracle, used to instantiate theorems. -/
def stubParse (v : JVal) : String → Except String JVal := fun _ => Except.ok v

/-- A constant `requests.post` oracle, used to instantiate theorems. -/
def stubPost (r : PostResult) : String → JVal → PostResult := fun _ _ => r

theorem lambda_handler_of_exn (ep : Option String) (event : List (String × JVal))
    (pj : String → Except String JVal) (post : String → JVal → PostResult)
    (m : String) (h : lambdaBody ep event pj post = Except.error (PyErr.exn m)) :
    lambda_handler ep event pj post = resp 500 (errBody m) := by
  simp [lambda_handler, h]

theorem lambda_handler_of_attrErr (ep : Option String) (event : List (String × JVal))
    (pj : String → Except String JVal) (post : String → JVal → PostResult)
    (m : String) (h : lambdaBody ep event pj post = Except.error (PyErr.attrErr m)) :
    lambda_handler ep event pj post = resp 500 (errBody m) := by
  simp [lambda_handler, h]

theorem lambda_handler_of_requestExn (ep : Option String) (event : List (String × JVal))
    (pj : String → Except String JVal) (post : String → JVal → PostResult)
    (m : String) (h : lambdaBody ep event pj post = Except.error (PyErr.requestExn m)) :
    lambda_handler ep event pj post =
      resp 502 (errBody ("Failed to connect to inference service: " ++ m)) := by
  simp [lambda_handler, h]

theorem lambdaBody_no_endpoint (ep : Option String) (event : List (String × JVal))
    (pj : String → Except String JVal) (post : String → JVal → PostResult)
    (hep : endpointSet ep = false) :
    lambdaBody ep event pj post = Except.error (PyErr.exn cfgMsg) := by
  cases ep with
  | none => rfl
  | some s =>
    have hs : (s == "") = true := by
      simpa [endpointSet] using hep
    simp [lambdaBody, hs, bind, Except.bind]

/-- Under the hypotheses that let the handler reach the HTTP POST, the
`try` block's result is decided by the `post` oracle: a
`RequestException` propagates as such, a 2xx body is handed to the
post-processing of index.py lines 57-69. -/
theorem lambdaBody_reach (epS : String) (event : List (String × JVal))
    (pj : String → Except String JVal) (post : String → JVal → PostResult)
    (bs : String) (bj : List (String × JVal)) (mv : JVal)
    (hep : (epS == "") = false)
    (hcl : claimsStep event = Except.ok ())
    (hbody : event.lookup "body" = some (JVal.str bs))
    (hpj : pj bs = Except.ok (JVal.obj bj))
    (hmsg : bj.lookup "message" = some mv) :
    lambdaBody (some epS) event pj post =
      match post epS (JVal.obj [("message", mv),
        ("conversationHistory", (bj.lookup "conversationHistory").getD (JVal.arr []))]) with
      | PostResult.reqExn s => Except.error (PyErr.requestExn s)
      | PostResult.ok api => afterPost api := by
  simp [lambdaBody, hep, hcl, hbody, hpj, pyIndex, hmsg, pyGetD, bind, Except.bind]

theorem afterPost_not_success (fs : List (String × JVal))
    (h : truthyOpt (fs.lookup "success") = false) :
    afterPost (JVal.obj fs) = Except.error (PyErr.exn
      (pyStr ((fs.lookup "error").getD (JVal.str "Inference API returned an error.")))) := by
  simp [afterPost, pyGet, h, pyGetD, bind, Except.bind]

theorem afterPost_missing_fields (fs : List (String × JVal))
    (h : truthyOpt (fs.lookup "success") = true)
    (h2 : (noneLike (fs.lookup "response") ||
            noneLike (fs.lookup "conversationHistory")) = true) :
    afterPost (JVal.obj fs) =
      Except.error (PyErr.exn "Invalid response structure from Inference API.") := by
  simp [afterPost, pyGet, h, h2, bind, Except.bind]

/- ------------------------------------------------------------------
Claims about the Edge Relay.
------------------------------------------------------------------ -/

/-- C6: whenever the invocation reaches the HTTP POST to the Inference
Service (endpoint configured, claims extraction and body parsing
succeed, `message` present) and the POST fails at the transport level
(connection failure or a non-2xx status raised by `raise_for_status`,
both a `RequestException`), the handler returns status 502 with body
`{success: false, error: "Failed to connect to inference service: <details>"}`. -/
theorem relay_transport_failure_502 (epS : String) (event : List (String × JVal))
    (pj : String → Except String JVal) (post : String → JVal → PostResult)
    (bs : String) (bj : List (String × JVal)) (mv : JVal) (s : String)
    (hep : epS ≠ "")
    (hcl : claimsStep event = Except.ok ())
    (hbody : event.lookup "body" = some (JVal.str bs))
    (hpj : pj bs = Except.ok (JVal.obj bj))
    (hmsg : bj.lookup "message" = some mv)
    (hpost : post epS (JVal.obj [("message", mv),
        ("conversationHistory", (bj.lookup "conversationHistory").getD (JVal.arr []))]) =
      PostResult.reqExn s) :
    lambda_handler (some epS) event pj post =
      resp 502 (errBody ("Failed to connect to inference service: " ++ s)) := by
  have hb := lambdaBody_reach epS event pj post bs bj mv
    (beq_eq_false_iff_ne.mpr hep) hcl hbody hpj hmsg
  rw [hpost] at hb
  exact lambda_handler_of_requestExn _ _ _ _ _ hb

theorem relay_transport_failure_502_witness :
    lambda_handler (some "http://inference.local/infer") [("body", JVal.str "x")]
      (stubParse (JVal.obj [("message", JVal.str "hi")]))
      (stubPost (PostResult.reqExn "connection refused")) =
      resp 502 (errBody ("Failed to connect to inference service: " ++ "connection refused")) :=
  relay_transport_failure_502 "http://inference.local/infer" [("body", JVal.str "x")]
    (stubParse (JVal.obj [("message", JVal.str "hi")]))
    (stubPost (PostResult.reqExn "connection refused"))
    "x" [("message", JVal.str "hi")] (JVal.str "hi") "connection refused"
    (by decide) rfl rfl rfl rfl rfl

/-- C7: the handler is total (no exception escapes) and every invocation
returns status 200, 502 or 500; every non-transport failure — missing
`INFERENCE_API_ENDPOINT`, a raised `AttributeError`, unparseable body
JSON, a missing `message` key, an Inference Service payload whose
`success` is falsy (its `error` field, or the generic fallback, becomes
the failure reason) and a truthy `success` with `response` or
`conversationHistory` absent — surfaces as status 500 with body
`{success: false, error: <message>}`. -/
theorem relay_failure_taxonomy (ep : Option String) (event : List (String × JVal))
    (pj : String → Except String JVal) (post : String → JVal → PostResult) :
    ((lambda_handler ep event pj post).statusCode = 200 ∨
     (lambda_handler ep event pj post).statusCode = 502 ∨
     (lambda_handler ep event pj post).statusCode = 500) ∧
    (∀ m, lambdaBody ep event pj post = Except.error (PyErr.exn m) →
      lambda_handler ep event pj post = resp 500 (errBody m)) ∧
    (∀ m, lambdaBody ep event pj post = Except.error (PyErr.attrErr m) →
      lambda_handler ep event pj post = resp 500 (errBody m)) ∧
    (endpointSet ep = false →
      lambdaBody ep event pj post = Except.error (PyErr.exn cfgMsg)) ∧
    (∀ epS bs e, ep = some epS → epS ≠ "" → claimsStep event = Except.ok () →
      event.lookup "body" = some (JVal.str bs) → pj bs = Except.error e →
      lambda_handler ep event pj post = resp 500 (errBody e)) ∧
    (∀ epS bs bj, ep = some epS → epS ≠ "" → claimsStep event = Except.ok () →
      event.lookup "body" = some (JVal.str bs) → pj bs = Except.ok (JVal.obj bj) →
      bj.lookup "message" = none →
      lambda_handler ep event pj post = resp 500 (errBody ("KeyError: " ++ "message"))) ∧
    (∀ fs, truthyOpt (fs.lookup "success") = false →
      afterPost (JVal.obj fs) = Except.error (PyErr.exn
        (pyStr ((fs.lookup "error").getD (JVal.str "Inference API returned an error."))))) ∧
    (∀ fs, truthyOpt (fs.lookup "success") = true →
      (noneLike (fs.lookup "response") ||
        noneLike (fs.lookup "conversationHistory")) = true →
      afterPost (JVal.obj fs) =
        Except.error (PyErr.exn "Invalid response structure from Inference API.")) := by
  refine ⟨?_, ?_, ?_, ?_, ?_, ?_, ?_, ?_⟩
  · cases h : lambdaBody ep event pj post with
    | ok v =>
      cases v with
      | mk a b => exact Or.inl (by simp [lambda_handler, h, resp])
    | error e =>
      cases e with
      | requestExn m => exact Or.inr (Or.inl (by simp [lambda_handler, h, resp]))
      | attrErr m => exact Or.inr (Or.inr (by simp [lambda_handler, h, resp]))
      | exn m => exact Or.inr (Or.inr (by simp [lambda_handler, h, resp]))
  · exact fun m h => lambda_handler_of_exn ep event pj post m h
  · exact fun m h => lambda_handler_of_attrErr ep event pj post m h
  · exact fun h => lambdaBody_no_endpoint ep event pj post h
  · intro epS bs e hepv hep hcl hbody hpj
    subst hepv
    have hb : lambdaBody (some epS) event pj post = Except.error (PyErr.exn e) := by
      simp [lambdaBody, beq_eq_false_iff_ne.mpr hep, hcl, hbody, hpj, bind, Except.bind]
    exact lambda_handler_of_exn _ _ _ _ _ hb
  · intro epS bs bj hepv hep hcl hbody hpj hnone
    subst hepv
    have hb : lambdaBody (some epS) event pj post =
        Except.error (PyErr.exn ("KeyError: " ++ "message")) := by
      simp [lambdaBody, beq_eq_false_iff_ne.mpr hep, hcl, hbody, hpj, pyIndex, hnone,
        bind, Except.bind]
    exact lambda_handler_of_exn _ _ _ _ _ hb
  · exact fun fs h => afterPost_not_success fs h
  · exact fun fs h h2 => afterPost_missing_fields fs h h2

theorem relay_failure_taxonomy_witness :
    lambda_handler none [] (stubParse JVal.null) (stubPost (PostResult.ok JVal.null)) =
      resp 500 (errBody cfgMsg) := by
  have h := relay_failure_taxonomy none [] (stubParse JVal.null)
    (stubPost (PostResult.ok JVal.null))
  exact h.2.1 cfgMsg (h.2.2.2.1 rfl)

/-- C8: every response of the Edge Relay handler — success or either
error branch — carries exactly the permissive CORS header map, with
`Access-Control-Allow-Origin` set to `*` and
`Access-Control-Allow-Methods` set to `OPTIONS,POST`. -/
theorem relay_cors_always (ep : Option String) (event : List (String × JVal))
    (pj : String → Except String JVal) (post : String → JVal → PostResult) :
    (lambda_handler ep event pj post).headers = corsHeaders ∧
    (lambda_handler ep event pj post).headers.lookup "Access-Control-Allow-Origin" =
      some "*" ∧
    (lambda_handler ep event pj post).headers.lookup "Access-Control-Allow-Methods" =
      some "OPTIONS,POST" := by
  have hh : (lambda_handler ep event pj post).headers = corsHeaders := by
    cases h : lambdaBody ep event pj post with
    | ok v =>
      cases v with
      | mk a b => simp [lambda_handler, h, resp]
    | error e => cases e <;> simp [lambda_handler, h, resp]
  exact ⟨hh, by rw [hh]; rfl, by rw [hh]; rfl⟩

/-- C10: an event whose `requestContext.authorizer` object has no
`claims` key makes the handler return status 500 for every
configuration: when the endpoint is configured the unconditional
`event["requestContext"]["authorizer"]["claims"]` access raises
`KeyError` inside the main `try` block (even though the value is only
logged), and when it is not the configuration error fires first — either
way the invocation fails with 500. -/
theorem relay_missing_claims_500 (ep : Option String) (event : List (String × JVal))
    (pj : String → Except String JVal) (post : String → JVal → PostResult)
    (rc az : List (String × JVal))
    (h1 : event.lookup "requestContext" = some (JVal.obj rc))
    (h2 : rc.lookup "authorizer" = some (JVal.obj az))
    (h3 : az.lookup "claims" = none) :
    (lambda_handler ep event pj post).statusCode = 500 := by
  have hcl : claimsStep event = Except.error (PyErr.exn ("KeyError: " ++ "claims")) := by
    simp [claimsStep, h1, pyIn, h2, pyIndex, h3]
  cases ep with
  | none =>
    rw [lambda_handler_of_exn none event pj post cfgMsg
      (lambdaBody_no_endpoint none event pj post rfl)]
    rfl
  | some s =>
    cases hs : (s == "") with
    | true =>
      have hb : lambdaBody (some s) event pj post = Except.error (PyErr.exn cfgMsg) := by
        simp [lambdaBody, hs, bind, Except.bind]
      rw [lambda_handler_of_exn _ _ _ _ _ hb]
      rfl
    | false =>
      have hb : lambdaBody (some s) event pj post =
          Except.error (PyErr.exn ("KeyError: " ++ "claims")) := by
        simp [lambdaBody, hs, hcl, bind, Except.bind]
      rw [lambda_handler_of_exn _ _ _ _ _ hb]
      rfl

theorem relay_missing_claims_500_witness :
    (lambda_handler (some "http://inference.local/infer")
      [("requestContext", JVal.obj [("authorizer", JVal.obj [])])]
      (stubParse JVal.null) (stubPost (PostResult.ok JVal.null))).statusCode = 500 :=
  relay_missing_claims_500 (some "http://inference.local/infer")
    [("requestContext", JVal.obj [("authorizer", JVal.obj [])])]
    (stubParse JVal.null) (stubPost (PostResult.ok JVal.null))
    [("authorizer", JVal.obj [])] [] rfl rfl rfl
